import Mathlib

/-
Verification development for the cookie/session subsystem of the
remix-kentcdodds repository, shallowly embedded from
src/app/utils/session.server.ts and src/app/utils/client.server.ts.

Asynchronous I/O is embedded by explicit state passing: the external
store is a value of type DB threaded through each operation, and each
independently failable store call takes an explicit Boolean telling
whether that call rejects.  Randomly generated identifiers (cuid session
ids, uuid client ids) are taken as explicit parameters.
-/

namespace KCD

/-- The reserved session key for the session id, literal from
session.server.ts. -/
def sessionIdKey : String := "__session_id__"

/-- The reserved key of the client-identity cookie, literal from
client.server.ts. -/
def clientIdKey : String := "clientId"

/-- The login path used by the route guards. -/
def loginPath : String := "/login"

/-- The site root used by requireAdminUser on a role rejection. -/
def rootPath : String := "/"

/-- Decoded session data: a key/value mapping with string keys and
string values, in insertion order, as a JavaScript object holds it. -/
abbrev SessionData := List (String × String)

/-- session.get k: the value of the first entry with key k. -/
def sessionGet : SessionData → String → Option String
  | [], _ => none
  | (k2, v2) :: rest, k => if k2 = k then some v2 else sessionGet rest k

/-- session.set k v: JavaScript object assignment, replacing the value in
place when the key is present and appending the pair at the end
otherwise. -/
def sessionSet : SessionData → String → String → SessionData
  | [], k, v => [(k, v)]
  | (k2, v2) :: rest, k, v =>
    if k2 = k then (k, v) :: rest else (k2, v2) :: sessionSet rest k v

/-- session.unset k: JavaScript delete of the key. -/
def sessionUnset : SessionData → String → SessionData
  | [], _ => []
  | (k2, v2) :: rest, k =>
    if k2 = k then sessionUnset rest k else (k2, v2) :: sessionUnset rest k

/-- Modelled from the spec: the Cookie Codec (an external collaborator,
createCookieSessionStorage from the remix package, not part of this
repository).  It deterministically serializes and signs the session
data; serialized forms are byte-identical exactly when the underlying
data are equal, because the codec is deterministic and the signed value
decodes back to the data.  The signed value is therefore represented by
the session data it encodes. -/
structure SignedCookie where
  data : SessionData
deriving DecidableEq, Repr

/-- Modelled from the spec: sessionStorage.commitSession, the serialize
and sign step of the Cookie Codec. -/
def commitSession (s : SessionData) : SignedCookie := ⟨s⟩

/-- Modelled from the spec: sessionStorage.getSession applied to the
cookie header: a missing or invalid cookie decodes to an empty session,
a valid signed cookie decodes back to the data it was committed from. -/
def decodeCookie : Option SignedCookie → SessionData
  | none => []
  | some c => c.data

/-- One incoming request, carrying at most one signed value per cookie
namespace: the auth session cookie (KCD_root_session) and the
client-identity cookie (KCD_client_id). -/
structure Request where
  authCookie : Option SignedCookie
  clientCookie : Option SignedCookie
deriving DecidableEq, Repr

/-- A user record, as read from the external user store. -/
structure User where
  id : String
  email : String
  role : String
deriving DecidableEq, Repr

/-- A server-side session record mapping a session id to a user id. -/
structure SessionRecord where
  id : String
  userId : String
deriving DecidableEq, Repr

/-- Modelled from the spec: the backing store (prisma.server.ts, not
under src/), holding the user table and the session table. -/
structure DB where
  users : List User
  sessions : List SessionRecord
deriving DecidableEq, Repr

/-- One call against the backing store, recorded so that a theorem can
state that no lookup was attempted. -/
inductive StoreOp
  | lookupUserBySessionId (sid : String)
  | lookupUserByEmail (email : String)
  | createSessionRec (userId : String)
  | deleteSessionRec (sid : String)
deriving DecidableEq, Repr

/-- Lookup of a session record by its id (unique index). -/
def findSessionRec : List SessionRecord → String → Option SessionRecord
  | [], _ => none
  | r :: rest, sid => if r.id = sid then some r else findSessionRec rest sid

/-- Lookup of a user by id (unique index). -/
def findUserById : List User → String → Option User
  | [], _ => none
  | u :: rest, uid => if u.id = uid then some u else findUserById rest uid

/-- Lookup of a user by email address (unique index). -/
def findUserByEmail : List User → String → Option User
  | [], _ => none
  | u :: rest, email => if u.email = email then some u else findUserByEmail rest email

/-- Modelled from the spec: getUserByEmail from prisma.server.ts (not
under src/): finds the user with the given email address, or none. -/
def getUserByEmail (db : DB) (email : String) : Option User :=
  findUserByEmail db.users email

/-- Modelled from the spec: the successful result of getUserFromSessionId
from prisma.server.ts (not under src/): the user owning the session
record with the given id, or none when no such record or user exists. -/
def lookupUserFromSessionId (db : DB) (sid : String) : Option User :=
  match findSessionRec db.sessions sid with
  | none => none
  | some r => findUserById db.users r.userId

/-- Modelled from the spec: createSession from prisma.server.ts (not
under src/): creates a session record for the user id, returning the
record; the id of the new record is generated by the store and is given
here as the explicit parameter newId. -/
def createSession (newId : String) (db : DB) (userId : String) :
    SessionRecord × DB :=
  let sr : SessionRecord := ⟨newId, userId⟩
  (sr, ⟨db.users, db.sessions ++ [sr]⟩)

/-- Modelled from the spec: prisma.session.delete, removing the session
record with the given id from the store. -/
def deleteSession (db : DB) (sid : String) : DB :=
  ⟨db.users, db.sessions.filter (fun r => r.id ≠ sid)⟩

/-- The handle returned by getSession in session.server.ts: the mutable
in-memory session data together with the serialized form captured at
open time (the initialValue constant of getSession). -/
structure SessionHandle where
  data : SessionData
  initialValue : SignedCookie
deriving DecidableEq, Repr

/-- getSession: decode the request cookie and capture the initial
serialized value. -/
def getSession (req : Request) : SessionHandle :=
  let d := decodeCookie req.authCookie
  ⟨d, commitSession d⟩

/-- The getSessionId closure of the handle. -/
def SessionHandle.getSessionId (h : SessionHandle) : Option String :=
  sessionGet h.data sessionIdKey

/-- The unsetSessionId closure of the handle. -/
def SessionHandle.unsetSessionId (h : SessionHandle) : SessionHandle :=
  ⟨sessionUnset h.data sessionIdKey, h.initialValue⟩

/-- The commit closure of the handle: re-serialize, and return none when
the serialized form equals the one captured at open time. -/
def SessionHandle.commit (h : SessionHandle) : Option SignedCookie :=
  let currentValue := commitSession h.data
  if currentValue = h.initialValue then none else some currentValue

/-- The getUser closure of the handle: read the session id; when absent
return none without a store call; otherwise look the user up, and on a
rejected lookup (lookupFails) unset the session id and return none.  The
possibly mutated handle is returned alongside the result, and the store
call is recorded. -/
def SessionHandle.getUser (db : DB) (lookupFails : Bool) (h : SessionHandle) :
    Option User × SessionHandle × List StoreOp :=
  match h.getSessionId with
  | none => (none, h, [])
  | some token =>
    if lookupFails then (none, h.unsetSessionId, [StoreOp.lookupUserBySessionId token])
    else (lookupUserFromSessionId db token, h, [StoreOp.lookupUserBySessionId token])

/-- The singIn closure of the handle (the name is the literal one of the
source): create a session record for the user id in the store, then set
the session-id key to the id of the new record. -/
def SessionHandle.singIn (newId : String) (db : DB) (h : SessionHandle)
    (u : User) : SessionHandle × DB :=
  let (userSession, db2) := createSession newId db u.id
  (⟨sessionSet h.data sessionIdKey userSession.id, h.initialValue⟩, db2)

/-- The signOut closure of the handle: when a session id is present,
unset it locally and request deletion of the session record from the
store; a failed deletion (deleteFails) leaves the store as is and is not
surfaced. -/
def SessionHandle.signOut (deleteFails : Bool) (db : DB) (h : SessionHandle) :
    SessionHandle × DB :=
  match h.getSessionId with
  | none => (h, db)
  | some sessionId =>
    if deleteFails then (h.unsetSessionId, db)
    else (h.unsetSessionId, deleteSession db sessionId)

/-- The getHeaders closure of the handle, called with the default fresh
Headers object (represented by the list of its entries): append a
Set-Cookie entry with the committed value when commit yields one, return
the headers unchanged otherwise. -/
def SessionHandle.getHeaders (h : SessionHandle)
    (headers : List (String × SignedCookie)) : List (String × SignedCookie) :=
  match h.commit with
  | none => headers
  | some value => headers ++ [("Set-Cookie", value)]

/-- The result of the module-level getUser of session.server.ts: the
resolved user, the session handle it opened (returned so the theorems
can observe that it was not mutated), and the store calls it made. -/
structure GetUserResult where
  user : Option User
  handle : SessionHandle
  ops : List StoreOp
deriving DecidableEq, Repr

/-- The module-level getUser of session.server.ts: open the session,
read the session-id key from it; when absent return none without
contacting the store; otherwise look the user up, and on a rejected
lookup (lookupFails) log and return none, leaving the session as is. -/
def getUser (db : DB) (lookupFails : Bool) (req : Request) : GetUserResult :=
  let h := getSession req
  match sessionGet h.data sessionIdKey with
  | none => ⟨none, h, []⟩
  | some token =>
    if lookupFails then ⟨none, h, [StoreOp.lookupUserBySessionId token]⟩
    else ⟨lookupUserFromSessionId db token, h, [StoreOp.lookupUserBySessionId token]⟩

/-- A response, reduced to the fields this subsystem produces: status,
Location, and the Set-Cookie entries of its headers. -/
structure Response where
  status : Nat
  location : Option String
  headers : List (String × SignedCookie)
deriving DecidableEq, Repr

/-- The redirect helper of the remix package as used here: a 302
response with the given Location and headers. -/
def redirect (url : String) (headers : List (String × SignedCookie)) : Response :=
  ⟨302, some url, headers⟩

/-- requireUser: resolve the user; when absent, open a session, sign
out, and redirect to the login path with the committed session headers;
otherwise invoke the callback.  The store is threaded through and
returned. -/
def requireUser (db : DB) (lookupFails deleteFails : Bool) (req : Request)
    (callback : User → Response) : Response × DB :=
  match (getUser db lookupFails req).user with
  | some user => (callback user, db)
  | none =>
    let h := getSession req
    let (h2, db2) := h.signOut deleteFails db
    (redirect loginPath (h2.getHeaders []), db2)

/-- requireAdminUser: as requireUser, but a resolved user whose role is
not ADMIN is redirected to the site root with no headers attached. -/
def requireAdminUser (db : DB) (lookupFails deleteFails : Bool) (req : Request)
    (callback : User → Response) : Response × DB :=
  match (getUser db lookupFails req).user with
  | none =>
    let h := getSession req
    let (h2, db2) := h.signOut deleteFails db
    (redirect loginPath (h2.getHeaders []), db2)
  | some user =>
    if user.role ≠ "ADMIN" then (redirect rootPath [], db)
    else (callback user, db)

/-- Modelled from the spec: the magic-link token carried by the request
URL, as seen through validateMagicLink of prisma.server.ts (not under
src/): validation either yields the encoded email address or throws for
an invalid or expired link. -/
inductive MagicToken
  | valid (email : String)
  | invalid
deriving DecidableEq, Repr

/-- Modelled from the spec: validateMagicLink from prisma.server.ts (not
under src/), applied to the request URL: yields the email address of a
valid token and throws (Except.error) on an invalid or expired one. -/
def validateMagicLink : MagicToken → Except String String
  | MagicToken.valid email => Except.ok email
  | MagicToken.invalid => Except.error ("invalid magic link")

/-- getUserSessionFromMagicLink: validate the token of the request URL
(a thrown validation error propagates, nothing here catches it), look
the user up by email, return none when no user exists, and otherwise
open a session for the request and sign the user in, returning the
authenticated handle.  The store is threaded through and returned. -/
def getUserSessionFromMagicLink (newId : String) (db : DB) (req : Request)
    (token : MagicToken) : Except String (Option SessionHandle) × DB :=
  match validateMagicLink token with
  | Except.error e => (Except.error e, db)
  | Except.ok email =>
    match getUserByEmail db email with
    | none => (Except.ok none, db)
    | some user =>
      let h := getSession req
      let (h2, db2) := h.singIn newId db user
      (Except.ok (some h2), db2)

/-- The handle returned by getClientSession in client.server.ts: the
in-memory client session data and the serialized form captured at open
time.  The client cookie uses its own namespace (KCD_client_id) but the
same codec. -/
structure ClientSessionHandle where
  data : SessionData
  initialValue : SignedCookie
deriving DecidableEq, Repr

/-- The body of the getClientId closure of client.server.ts: when a
clientId value is present return it, otherwise generate a fresh
identifier (uuid.v4, given here as the explicit parameter fresh), set it
and return it.  The possibly mutated data is returned alongside. -/
def clientIdOf (s : SessionData) (fresh : String) : String × SessionData :=
  match sessionGet s clientIdKey with
  | some clientId => (clientId, s)
  | none => (fresh, sessionSet s clientIdKey fresh)

/-- getClientSession: decode the client cookie, capture the initial
serialized value, then call getClientId once so the clientId is set if
it was not already. -/
def getClientSession (fresh : String) (req : Request) : ClientSessionHandle :=
  let d := decodeCookie req.clientCookie
  let initialValue := commitSession d
  let (_, d2) := clientIdOf d fresh
  ⟨d2, initialValue⟩

/-- The getClientId closure as callable on the returned handle. -/
def ClientSessionHandle.getClientId (fresh : String)
    (h : ClientSessionHandle) : String × ClientSessionHandle :=
  let (clientId, d2) := clientIdOf h.data fresh
  (clientId, ⟨d2, h.initialValue⟩)

/-- The commit closure of the client handle: re-serialize, and return
none when the serialized form equals the one captured at open time. -/
def ClientSessionHandle.commit (h : ClientSessionHandle) : Option SignedCookie :=
  let currentValue := commitSession h.data
  if currentValue = h.initialValue then none else some currentValue

/-- The cookie a client holds after a response: the committed value when
one was emitted, the cookie it already had otherwise. -/
def cookieAfter (previous : Option SignedCookie) (committed : Option SignedCookie) :
    Option SignedCookie :=
  match committed with
  | some c => some c
  | none => previous

/-
Helper lemmas about the session data operations.
-/

/-- Reading a key right after setting it yields the value just set. -/
theorem sessionGet_set_self (s : SessionData) (k v : String) :
    sessionGet (sessionSet s k v) k = some v := by
  induction s with
  | nil => simp [sessionSet, sessionGet]
  | cons p rest ih =>
    obtain ⟨k2, v2⟩ := p
    by_cases hk : k2 = k
    · simp [sessionSet, sessionGet, hk]
    · simp [sessionSet, sessionGet, hk, ih]

/-- Reading a key right after unsetting it yields nothing. -/
theorem sessionGet_unset_self (s : SessionData) (k : String) :
    sessionGet (sessionUnset s k) k = none := by
  induction s with
  | nil => simp [sessionUnset, sessionGet]
  | cons p rest ih =>
    obtain ⟨k2, v2⟩ := p
    by_cases hk : k2 = k
    · simp [sessionUnset, sessionGet, hk, ih]
    · simp [sessionUnset, sessionGet, hk, ih]

/-- Two session data differing at a key are distinct. -/
theorem sessionData_ne_of_get_ne {s1 s2 : SessionData} {k : String}
    (h : sessionGet s1 k ≠ sessionGet s2 k) : s1 ≠ s2 := by
  intro he
  exact h (he ▸ rfl)

/-- A record lookup over an append finds the appended record when no
earlier record carries its id. -/
theorem findSessionRec_append_fresh (l : List SessionRecord) (sr : SessionRecord)
    (hfresh : ∀ r ∈ l, r.id ≠ sr.id) :
    findSessionRec (l ++ [sr]) sr.id = some sr := by
  induction l with
  | nil => simp [findSessionRec]
  | cons r rest ih =>
    have hr : r.id ≠ sr.id := hfresh r (by simp)
    simp only [List.cons_append, findSessionRec, hr, if_false]
    exact ih (fun x hx => hfresh x (by simp [hx]))

/-- A handle fresh from getSession commits to none: the current
serialized form is the captured one. -/
theorem getSession_commit_eq_none (req : Request) :
    (getSession req).commit = none := by
  simp [getSession, SessionHandle.commit]

/-- The initial value captured by getClientSession is the serialized
form of the decoded incoming client cookie. -/
theorem getClientSession_initialValue (f : String) (req : Request) :
    (getClientSession f req).initialValue =
      commitSession (decodeCookie req.clientCookie) := rfl

/-- getClientId returns the stored identifier whenever one is present,
whatever fresh identifier stands ready. -/
theorem getClientId_of_get (h : ClientSessionHandle) (g cid : String)
    (hc : sessionGet h.data clientIdKey = some cid) :
    (h.getClientId g).1 = cid := by
  simp [ClientSessionHandle.getClientId, clientIdOf, hc]

/-- After unsetting the session id of a handle fresh from getSession
whose session carried one, commit yields a value whose data no longer
holds the session id. -/
theorem unset_commit_of_sessionId (req : Request) (token : String)
    (ht : (getSession req).getSessionId = some token) :
    ((getSession req).unsetSessionId).commit =
      some (commitSession ((getSession req).unsetSessionId).data) ∧
    sessionGet ((getSession req).unsetSessionId).data sessionIdKey = none := by
  have hd : sessionGet (getSession req).data sessionIdKey = some token := ht
  have hget : sessionGet ((getSession req).unsetSessionId).data sessionIdKey = none := by
    simp [SessionHandle.unsetSessionId, sessionGet_unset_self]
  have hne : ((getSession req).unsetSessionId).data ≠ (getSession req).data :=
    sessionData_ne_of_get_ne (by rw [hget, hd]; simp)
  have hvne : commitSession ((getSession req).unsetSessionId).data ≠
      ((getSession req).unsetSessionId).initialValue := by
    intro hc
    exact hne (congrArg SignedCookie.data hc)
  exact ⟨by simp [SessionHandle.commit, hvne], hget⟩

/-
Concrete fixtures used by witnesses and counterexamples.
-/

/-- An empty backing store. -/
def db0 : DB := ⟨[], []⟩

/-- A request carrying no cookies at all. -/
def req0 : Request := ⟨none, none⟩

/-- An ordinary (non-admin) user. -/
def u1 : User := ⟨"u1", "user-one@example.com", "MEMBER"⟩

/-- A store holding u1 and a session record s1 owned by u1. -/
def db1 : DB := ⟨[u1], [⟨"s1", "u1"⟩]⟩

/-- A store holding u1 and no session records. -/
def dbU : DB := ⟨[u1], []⟩

/-- A request whose auth session carries the session id s1. -/
def reqS : Request := ⟨some ⟨[(sessionIdKey, "s1")]⟩, none⟩

/-- A callback returning a fixed 200 response, standing for the guarded
route. -/
def cb0 : User → Response := fun _ => ⟨200, none, []⟩

/-
The claims.
-/

/-- C2: for every session handle obtained from getSession, commit called
without any prior set or unset mutation returns none, because the
serialized form equals the one captured at open time. -/
theorem commit_without_mutation_eq_none (req : Request) :
    (getSession req).commit = none :=
  getSession_commit_eq_none req

/-- C3: for every request whose cookie header is absent, getUser returns
none and performs no call against the backing store. -/
theorem getUser_no_cookie (db : DB) (lookupFails : Bool) (req : Request)
    (hc : req.authCookie = none) :
    (getUser db lookupFails req).user = none ∧
    (getUser db lookupFails req).ops = [] := by
  constructor <;> simp [getUser, getSession, decodeCookie, hc, sessionGet]

/-- Witness for C3 at the concrete cookie-less request req0. -/
theorem getUser_no_cookie_witness :
    (getUser db0 false req0).user = none ∧ (getUser db0 false req0).ops = [] :=
  getUser_no_cookie db0 false req0 rfl

/-- C4: for every magic-link token validating to an email with no user
in the store, getUserSessionFromMagicLink returns none without an error,
and the store is left unchanged (no user created, no sign-in). -/
theorem magicLink_unknown_email_none (newId : String) (db : DB) (req : Request)
    (email : String) (hu : getUserByEmail db email = none) :
    getUserSessionFromMagicLink newId db req (MagicToken.valid email) =
      (Except.ok none, db) := by
  simp [getUserSessionFromMagicLink, validateMagicLink, hu]

/-- Witness for C4: an email nobody in db1 has. -/
theorem magicLink_unknown_email_none_witness :
    getUserSessionFromMagicLink ("s2") db1 req0
      (MagicToken.valid ("nobody@example.com")) = (Except.ok none, db1) :=
  magicLink_unknown_email_none ("s2") db1 req0 ("nobody@example.com") rfl

/-- C5: for every request whose magic-link token fails validation, the
validation failure propagates out of getUserSessionFromMagicLink as the
thrown error, untouched, and the store is left unchanged. -/
theorem magicLink_invalid_propagates (newId : String) (db : DB) (req : Request) :
    getUserSessionFromMagicLink newId db req MagicToken.invalid =
      (Except.error ("invalid magic link"), db) ∧
    validateMagicLink MagicToken.invalid = Except.error ("invalid magic link") := by
  constructor <;> rfl

/-- C1, counterexample: at the concrete cookie-less request req0 the
resolved user is absent and requireUser redirects to the login path, yet
the response carries no Set-Cookie header at all, against the claim that
every such response carries one. -/
theorem requireUser_no_cookie_no_setCookie :
    (getUser db0 false req0).user = none ∧
    (requireUser db0 false false req0 cb0).1 = redirect loginPath [] ∧
    (requireUser db0 false false req0 cb0).1.headers = [] :=
  ⟨rfl, rfl, rfl⟩

/-- C1, amended: for every request whose resolved user is absent,
requireUser returns a redirect response targeting the login path; when
the incoming session carried a session id the response carries a
Set-Cookie header whose value clears it, and when it carried none the
response carries no Set-Cookie header. -/
theorem requireUser_absent_redirect (db : DB) (lf df : Bool) (req : Request)
    (cb : User → Response) (hu : (getUser db lf req).user = none) :
    (requireUser db lf df req cb).1.status = 302 ∧
    (requireUser db lf df req cb).1.location = some loginPath ∧
    (∀ sid, (getSession req).getSessionId = some sid →
      ∃ c, (requireUser db lf df req cb).1.headers = [("Set-Cookie", c)] ∧
        sessionGet c.data sessionIdKey = none) ∧
    ((getSession req).getSessionId = none →
      (requireUser db lf df req cb).1.headers = []) := by
  have hval : requireUser db lf df req cb =
      (redirect loginPath (((getSession req).signOut df db).1.getHeaders []),
        ((getSession req).signOut df db).2) := by
    simp [requireUser, hu]
  refine ⟨by rw [hval]; rfl, by rw [hval]; rfl, ?_, ?_⟩
  · intro sid hsid
    have h1 : ((getSession req).signOut df db).1 = (getSession req).unsetSessionId := by
      cases df <;> simp [SessionHandle.signOut, hsid]
    obtain ⟨hc, hg⟩ := unset_commit_of_sessionId req sid hsid
    refine ⟨commitSession ((getSession req).unsetSessionId).data, ?_, hg⟩
    rw [hval]
    simp [redirect, h1, SessionHandle.getHeaders, hc]
  · intro hnone
    have h1 : ((getSession req).signOut df db).1 = getSession req := by
      simp [SessionHandle.signOut, hnone]
    rw [hval]
    simp [redirect, h1, SessionHandle.getHeaders, getSession_commit_eq_none]

/-- Witness for the amended C1 at a request carrying the stale session
id s1 that no store record matches. -/
theorem requireUser_absent_redirect_witness :
    ∃ c, (requireUser db0 false false reqS cb0).1.headers = [("Set-Cookie", c)] ∧
      sessionGet c.data sessionIdKey = none :=
  (requireUser_absent_redirect db0 false false reqS cb0 rfl).2.2.1 ("s1") rfl

/-- C6: opening the client session, committing its output into the
cookie the client will hold next, and opening a second client session
from that cookie yields the same client identifier both times, whatever
fresh identifiers stand ready at each step. -/
theorem clientSession_roundtrip (req : Request) (f1 f2 g1 g2 : String) :
    ((getClientSession f2
        ⟨req.authCookie,
          cookieAfter req.clientCookie (getClientSession f1 req).commit⟩).getClientId g2).1 =
    ((getClientSession f1 req).getClientId g1).1 := by
  cases hg : sessionGet (decodeCookie req.clientCookie) clientIdKey with
  | some cid =>
    have hdata : (getClientSession f1 req).data = decodeCookie req.clientCookie := by
      simp [getClientSession, clientIdOf, hg]
    have hcommit : (getClientSession f1 req).commit = none := by
      simp [ClientSessionHandle.commit, hdata, getClientSession_initialValue]
    have hreq : (⟨req.authCookie, req.clientCookie⟩ : Request) = req := rfl
    rw [hcommit]
    show ((getClientSession f2 ⟨req.authCookie, req.clientCookie⟩).getClientId g2).1 = _
    rw [hreq]
    have hdata2 : (getClientSession f2 req).data = decodeCookie req.clientCookie := by
      simp [getClientSession, clientIdOf, hg]
    rw [getClientId_of_get _ g2 cid (by rw [hdata2]; exact hg),
        getClientId_of_get _ g1 cid (by rw [hdata]; exact hg)]
  | none =>
    have hdata : (getClientSession f1 req).data =
        sessionSet (decodeCookie req.clientCookie) clientIdKey f1 := by
      simp [getClientSession, clientIdOf, hg]
    have hget : sessionGet (getClientSession f1 req).data clientIdKey = some f1 := by
      rw [hdata]; exact sessionGet_set_self _ _ _
    have hne : (getClientSession f1 req).data ≠ decodeCookie req.clientCookie :=
      sessionData_ne_of_get_ne (by rw [hget, hg]; simp)
    have hvne : commitSession (getClientSession f1 req).data ≠
        (getClientSession f1 req).initialValue := by
      intro hc
      exact hne (congrArg SignedCookie.data hc)
    have hcommit : (getClientSession f1 req).commit =
        some (commitSession (getClientSession f1 req).data) := by
      simp [ClientSessionHandle.commit, hvne]
    rw [hcommit]
    simp only [cookieAfter]
    have hdata2 : (getClientSession f2
        ⟨req.authCookie, some (commitSession (getClientSession f1 req).data)⟩).data =
        (getClientSession f1 req).data := by
      show (clientIdOf (getClientSession f1 req).data f2).2 = (getClientSession f1 req).data
      simp [clientIdOf, hget]
    rw [getClientId_of_get _ g2 f1 (by rw [hdata2]; exact hget),
        getClientId_of_get _ g1 f1 hget]

/-- C7: signing in on a handle and then resolving the user through the
same handle against the updated store yields the user owning the newly
created session record, provided the generated id is fresh and the user
is the one the store holds under its id. -/
theorem singIn_then_getUser (h : SessionHandle) (db : DB) (u : User) (newId : String)
    (hfresh : ∀ r ∈ db.sessions, r.id ≠ newId)
    (huser : findUserById db.users u.id = some u) :
    ((h.singIn newId db u).1.getUser (h.singIn newId db u).2 false).1 = some u := by
  have hfind : findSessionRec (db.sessions ++ [⟨newId, u.id⟩]) newId = some ⟨newId, u.id⟩ :=
    findSessionRec_append_fresh db.sessions ⟨newId, u.id⟩ hfresh
  simp [SessionHandle.singIn, createSession, SessionHandle.getUser,
        SessionHandle.getSessionId, sessionGet_set_self, lookupUserFromSessionId,
        hfind, huser]

/-- Witness for C7: a fresh handle, the store dbU holding only u1, and
the fresh session id s9. -/
theorem singIn_then_getUser_witness :
    (((getSession req0).singIn ("s9") dbU u1).1.getUser
        ((getSession req0).singIn ("s9") dbU u1).2 false).1 = some u1 :=
  singIn_then_getUser (getSession req0) dbU u1 ("s9") (by simp [dbU]) rfl

/-- C8: for every request resolving to a user whose role is not ADMIN,
requireAdminUser returns a redirect response targeting the site root
with no headers attached, and the store is left unchanged. -/
theorem requireAdminUser_nonAdmin (db : DB) (lf df : Bool) (req : Request)
    (cb : User → Response) (u : User)
    (hu : (getUser db lf req).user = some u) (hr : u.role ≠ "ADMIN") :
    requireAdminUser db lf df req cb = (redirect rootPath [], db) ∧
    (requireAdminUser db lf df req cb).1.headers = [] := by
  have hval : requireAdminUser db lf df req cb = (redirect rootPath [], db) := by
    simp [requireAdminUser, hu, hr]
  exact ⟨hval, by rw [hval]; rfl⟩

/-- Witness for C8: the store db1 resolves reqS to the MEMBER user u1. -/
theorem requireAdminUser_nonAdmin_witness :
    requireAdminUser db1 false false reqS cb0 = (redirect rootPath [], db1) ∧
    (requireAdminUser db1 false false reqS cb0).1.headers = [] :=
  requireAdminUser_nonAdmin db1 false false reqS cb0 u1 rfl (by decide)

/-- C9: on a rejected store lookup, the getUser of a handle whose
session carries a session id returns none, removes the session id, and
leaves the handle committing to a value clearing it; the module-level
getUser on the same rejected lookup returns none with its session
untouched. -/
theorem handle_getUser_failure_unsets (req : Request) (db : DB) (token : String)
    (ht : (getSession req).getSessionId = some token) :
    ((getSession req).getUser db true).1 = none ∧
    ((getSession req).getUser db true).2.1.getSessionId = none ∧
    (∃ c, ((getSession req).getUser db true).2.1.commit = some c ∧
      sessionGet c.data sessionIdKey = none) ∧
    (getUser db true req).user = none ∧
    (getUser db true req).handle = getSession req := by
  have hd : sessionGet (getSession req).data sessionIdKey = some token := ht
  have hval : (getSession req).getUser db true =
      (none, (getSession req).unsetSessionId, [StoreOp.lookupUserBySessionId token]) := by
    simp [SessionHandle.getUser, ht]
  obtain ⟨hc, hg⟩ := unset_commit_of_sessionId req token ht
  refine ⟨by rw [hval], ?_, ?_, ?_, ?_⟩
  · rw [hval]
    exact hg
  · exact ⟨commitSession ((getSession req).unsetSessionId).data, by rw [hval]; exact hc, hg⟩
  · simp [getUser, hd]
  · simp [getUser, hd]

/-- Witness for C9 at the request reqS carrying the session id s1. -/
theorem handle_getUser_failure_unsets_witness :
    ((getSession reqS).getUser db0 true).1 = none ∧
    ((getSession reqS).getUser db0 true).2.1.getSessionId = none ∧
    (∃ c, ((getSession reqS).getUser db0 true).2.1.commit = some c ∧
      sessionGet c.data sessionIdKey = none) ∧
    (getUser db0 true reqS).user = none ∧
    (getUser db0 true reqS).handle = getSession reqS :=
  handle_getUser_failure_unsets reqS db0 ("s1") rfl

/-- C10: for every request with no client-identity cookie,
getClientSession sets the fresh identifier before returning, so its
commit yields the signed value holding that identifier, and the handle
resolves to that identifier. -/
theorem clientSession_first_time_commit (fresh g : String) (req : Request)
    (hc : req.clientCookie = none) :
    (getClientSession fresh req).commit = some ⟨[(clientIdKey, fresh)]⟩ ∧
    ((getClientSession fresh req).getClientId g).1 = fresh := by
  have hdata : (getClientSession fresh req).data = [(clientIdKey, fresh)] := by
    simp [getClientSession, hc, decodeCookie, clientIdOf, sessionGet, sessionSet]
  constructor
  · simp [ClientSessionHandle.commit, hdata, getClientSession_initialValue, hc,
      decodeCookie, commitSession]
  · exact getClientId_of_get _ g fresh (by rw [hdata]; simp [sessionGet, clientIdKey])

/-- Witness for C10 at the cookie-less request req0. -/
theorem clientSession_first_time_commit_witness :
    (getClientSession ("uuid-1") req0).commit = some ⟨[(clientIdKey, "uuid-1")]⟩ ∧
    ((getClientSession ("uuid-1") req0).getClientId ("uuid-2")).1 = "uuid-1" :=
  clientSession_first_time_commit ("uuid-1") ("uuid-2") req0 rfl

end KCD
